import Mathlib

/-!
Shallow embedding of the embedding-based kNN phishing classifier of this
repository (`classify_knn.py` and `classifier.py`).

Conventions of the embedding:
* Texts are `List Char` (a Python `str` is a sequence of characters and all
  slicing in the source is character-based); file identifiers are `String`.
* Embedding vectors are `List ℚ`.  The embedding model itself is not part of
  the repository's logic: every function of the source that embeds a query
  receives here an arbitrary parameter `embed` standing for
  `embed_texts(model, [chunk], is_query=True)[0]` (resp.
  `self._embed([text], is_query=True)[0]`).
* `sklearn.metrics.pairwise.cosine_similarity` (`classify_knn.py`) and
  `np.dot` (`classifier.py`) coincide with the plain dot product on the
  unit-normalised vectors produced by
  `model.encode(..., normalize_embeddings=True)`; similarity is therefore
  modelled as the dot product.  sklearn's input validation, which raises
  `ValueError` on a zero-sample example matrix, is modelled by
  `cosine_similarity_checked` and the `_checked` variants built on it.
* `np.argsort` is modelled as a stable ascending sort of the index list;
  the source relies on no particular tie order.
-/

/-- A labeled example's metadata, the dict
`{"file": ..., "is_phishing": ..., "label": ...}` built at
`classify_knn.py:193-197` and `classifier.py:162-166`. -/
structure Label where
  file : String
  is_phishing : Bool
  label : String
  deriving DecidableEq, Repr

/-- One reported neighbour, the dict appended at `classify_knn.py:103-108`
and `classifier.py:213-218`. -/
structure Neighbor where
  file : String
  label : String
  similarity : ℚ
  is_phishing : Bool
  deriving DecidableEq, Repr

/-- The dict returned by `classify_knn` (`classify_knn.py:117-121`); also
the triple returned by `PhishingClassifier.classify`
(`classifier.py:228`). -/
structure KnnResult where
  is_phishing : Bool
  confidence : ℚ
  neighbors : List Neighbor
  deriving DecidableEq, Repr

/-- `np.dot` of two vectors (`classifier.py:202`); equals
`sklearn.metrics.pairwise.cosine_similarity` (`classify_knn.py:90`) on the
unit-normalised vectors the program produces. -/
def dot (a b : List ℚ) : ℚ :=
  ((a.zip b).map fun p => p.1 * p.2).sum

/-- The Python slice `arr[-k:]`: the last `k` entries of the list (for
`k = 0` the slice `arr[-0:]` is the whole list). -/
def lastSlice (k : ℕ) (l : List ℕ) : List ℕ :=
  if k = 0 then l else l.drop (l.length - k)

/-- `np.argsort(similarities)[-k:][::-1]` (`classify_knn.py:93`,
`classifier.py:203`): the indices of the `k` largest similarities, largest
first.  `argsort` is modelled as a stable ascending sort of
`[0, ..., n-1]` by similarity; an out-of-range index reads similarity `0`
(never reached: all indices come from `List.range`). -/
def topKIndices (sims : List ℚ) (k : ℕ) : List ℕ :=
  (lastSlice k ((List.range sims.length).insertionSort
    fun i j => sims.getD i 0 ≤ sims.getD j 0)).reverse

/-- Default for out-of-range label lookups.  The source indexes
`example_labels[idx]` with `idx` drawn from the range of the similarity
array; with the equal-length lists every run of the program produces, the
default is never read. -/
def defaultLabel : Label :=
  { file := "", is_phishing := false, label := "" }

/-- The `phishing_votes`/`phishing_score` accumulator: sum of the
similarities of the selected neighbours whose label is phishing
(`classify_knn.py:109-112`, `classifier.py:219-222`). -/
def phishingScore (sims : List ℚ) (labels : List Label) (k : ℕ) : ℚ :=
  ((topKIndices sims k).map fun idx =>
    if (labels.getD idx defaultLabel).is_phishing then sims.getD idx 0 else 0).sum

/-- The `legit_votes`/`legit_score` accumulator: sum of the similarities of
the selected neighbours whose label is legitimate
(`classify_knn.py:109-112`, `classifier.py:219-222`). -/
def legitScore (sims : List ℚ) (labels : List Label) (k : ℕ) : ℚ :=
  ((topKIndices sims k).map fun idx =>
    if (labels.getD idx defaultLabel).is_phishing then 0 else sims.getD idx 0).sum

/-- The voting core shared verbatim by `classify_knn`
(`classify_knn.py:93-121`) and `PhishingClassifier.classify`
(`classifier.py:203-228`): select the top-k indices, build the neighbour
list in that order, accumulate similarity-weighted votes, verdict is
phishing on a strictly greater phishing score, confidence is
`max/(sum)` guarded by `sum > 0`. -/
def knnVote (sims : List ℚ) (labels : List Label) (k : ℕ) : KnnResult :=
  { is_phishing := decide (legitScore sims labels k < phishingScore sims labels k)
    confidence :=
      if 0 < phishingScore sims labels k + legitScore sims labels k then
        max (phishingScore sims labels k) (legitScore sims labels k) /
          (phishingScore sims labels k + legitScore sims labels k)
      else 0
    neighbors := (topKIndices sims k).map fun idx =>
      { file := (labels.getD idx defaultLabel).file
        label := (labels.getD idx defaultLabel).label
        similarity := sims.getD idx 0
        is_phishing := (labels.getD idx defaultLabel).is_phishing } }

/-- `classify_knn(query_embedding, example_embeddings, example_labels, k)`
(`classify_knn.py:87-121`), for the non-empty candidate sets of every
successful run; the `ValueError` the similarity call raises on a
zero-sample example array is modelled separately by
`classify_knn_checked` below. -/
def classify_knn (query : List ℚ) (example_embeddings : List (List ℚ))
    (example_labels : List Label) (k : ℕ) : KnnResult :=
  knnVote (example_embeddings.map fun e => dot query e) example_labels k

/-- The leave-one-out filter (`classify_knn.py:134-139`,
`classifier.py:188-190`): drop every `(embedding, label)` pair whose
`file` equals the excluded identifier.  Modelled on the paired lists; both
Python call sites require the two lists to have equal length (numpy boolean
masking resp. `example_embeddings[i]` indexing). -/
def filterExamples (embs : List (List ℚ)) (labels : List Label) (f : String) :
    List (List ℚ) × List Label :=
  ((embs.zip labels).filter fun p => p.2.file != f).unzip

/-- The candidate set used by `classify_with_chunking`
(`classify_knn.py:132-144`): filter when `exclude_file` is truthy (Python:
non-`None` and non-empty), then fall back to the unfiltered lists when the
filtered ones are empty. -/
def knnUsedExamples (embs : List (List ℚ)) (labels : List Label)
    (exclude_file : Option String) : List (List ℚ) × List Label :=
  match exclude_file with
  | none => (embs, labels)
  | some f =>
    if f = "" then (embs, labels)
    else
      (if (filterExamples embs labels f).1.isEmpty then embs
        else (filterExamples embs labels f).1,
       if (filterExamples embs labels f).2.isEmpty then labels
        else (filterExamples embs labels f).2)

/-- The body of the `while` loop of `chunk_text` (`classify_knn.py:66-75`),
with explicit fuel.  Whenever `overlap < chunk_size` the loop advances
`start` by `chunk_size - overlap ≥ 1` per iteration and stops once
`start + overlap ≥ len(text)`, so `text.length + 1` units of fuel always
suffice; in that regime Python's `start = end - overlap` also agrees with
the truncated subtraction used here. -/
def chunkLoop (text : List Char) (chunk_size overlap : ℕ) :
    ℕ → ℕ → List (List Char)
  | _, 0 => []
  | start, fuel + 1 =>
    if start < text.length then
      if text.length ≤ start + chunk_size - overlap + overlap then
        [(text.drop start).take chunk_size]
      else
        (text.drop start).take chunk_size ::
          chunkLoop text chunk_size overlap (start + chunk_size - overlap) fuel
    else []

/-- `chunk_text(text, chunk_size, overlap)` (`classify_knn.py:61-75`). -/
def chunk_text (text : List Char) (chunk_size overlap : ℕ) : List (List Char) :=
  if text.length ≤ chunk_size then [text]
  else chunkLoop text chunk_size overlap 0 (text.length + 1)

/-- A per-chunk result: the `classify_knn` dict augmented with
`chunk_index` and `chunk_preview` (`classify_knn.py:149-154`). -/
structure ChunkResult where
  is_phishing : Bool
  confidence : ℚ
  neighbors : List Neighbor
  chunk_index : ℕ
  chunk_preview : List Char
  deriving DecidableEq, Repr

/-- The dict returned by `classify_with_chunking`
(`classify_knn.py:166-173`). -/
structure EmailResult where
  is_phishing : Bool
  confidence : ℚ
  neighbors : List Neighbor
  num_chunks : ℕ
  phishing_chunks : ℕ
  chunk_results : List ChunkResult
  deriving DecidableEq, Repr

/-- Python's `max(l, key=lambda x: x["confidence"])`
(`classify_knn.py:162,164`): the first element of maximal confidence
(`max` replaces its running maximum only on a strictly greater key);
`none` on the empty list (`max([])` raises). -/
def pyMaxByConf (l : List ChunkResult) : Option ChunkResult :=
  match l with
  | [] => none
  | x :: xs =>
    some (xs.foldl (fun acc y => if acc.confidence < y.confidence then y else acc) x)

/-- Placeholder read only on the empty chunk list, which `chunk_text`
never returns. -/
def defaultChunkResult : ChunkResult :=
  { is_phishing := false, confidence := 0, neighbors := []
    chunk_index := 0, chunk_preview := [] }

/-- The per-chunk loop of `classify_with_chunking`
(`classify_knn.py:146-154`): chunk the content, embed each chunk as a
query (`embed` stands for `embed_texts(model, [chunk], is_query=True)[0]`)
and run `classify_knn` on it against the already-selected candidate set,
recording `chunk_index` and `chunk_preview`. -/
def chunkResults (embed : List Char → List ℚ) (content : List Char)
    (used : List (List ℚ) × List Label) (k : ℕ) : List ChunkResult :=
  (chunk_text content 1000 200).enum.map fun p =>
    { is_phishing := (classify_knn (embed p.2) used.1 used.2 k).is_phishing
      confidence := (classify_knn (embed p.2) used.1 used.2 k).confidence
      neighbors := (classify_knn (embed p.2) used.1 used.2 k).neighbors
      chunk_index := p.1
      chunk_preview :=
        if 100 < p.2.length then p.2.take 100 ++ "...".data else p.2 }

/-- `classify_with_chunking(model, content, example_embeddings,
example_labels, k, exclude_file)` (`classify_knn.py:124-173`): leave-one-out
selection of the candidate set, per-chunk voting, any-chunk-positive
aggregation, and the decisive best chunk chosen by maximal confidence. -/
def classify_with_chunking (embed : List Char → List ℚ) (content : List Char)
    (example_embeddings : List (List ℚ)) (example_labels : List Label)
    (k : ℕ) (exclude_file : Option String) : EmailResult :=
  let chunk_results := chunkResults embed content
    (knnUsedExamples example_embeddings example_labels exclude_file) k
  let any_phishing := chunk_results.any (·.is_phishing)
  let best :=
    (if any_phishing then pyMaxByConf (chunk_results.filter (·.is_phishing))
     else pyMaxByConf chunk_results).getD defaultChunkResult
  { is_phishing := any_phishing
    confidence := best.confidence
    neighbors := best.neighbors
    num_chunks := (chunk_text content 1000 200).length
    phishing_chunks := (chunk_results.filter (·.is_phishing)).length
    chunk_results := chunk_results }

/-- The candidate set used by `PhishingClassifier.classify`
(`classifier.py:186-193`): filter when `exclude_file` is truthy (Python:
non-`None` and non-empty); there is no fallback here. -/
def classifyUsedStore (embs : List (List ℚ)) (labels : List Label)
    (exclude_file : Option String) : List (List ℚ) × List Label :=
  match exclude_file with
  | none => (embs, labels)
  | some f => if f = "" then (embs, labels) else filterExamples embs labels f

/-- `PhishingClassifier.classify(text, k, exclude_file)`
(`classifier.py:176-228`), after `_load_examples` has populated the store;
`embed` stands for `self._embed([...], is_query=True)[0]`.  Unlike
`classify_with_chunking`, an exclusion that empties the store returns the
degenerate result instead of falling back (`classifier.py:195-196`). -/
def PhishingClassifier.classify (embed : String → List ℚ)
    (example_embeddings : List (List ℚ)) (example_labels : List Label)
    (text : String) (k : ℕ) (exclude_file : Option String) :
    Bool × ℚ × List Neighbor :=
  if example_labels.isEmpty then (false, 0, [])
  else if (classifyUsedStore example_embeddings example_labels
      exclude_file).2.isEmpty then (false, 0, [])
  else
    ((knnVote ((classifyUsedStore example_embeddings example_labels
        exclude_file).1.map fun e => dot e (embed (text.take 4000)))
      (classifyUsedStore example_embeddings example_labels exclude_file).2
      k).is_phishing,
     (knnVote ((classifyUsedStore example_embeddings example_labels
        exclude_file).1.map fun e => dot e (embed (text.take 4000)))
      (classifyUsedStore example_embeddings example_labels exclude_file).2
      k).confidence,
     (knnVote ((classifyUsedStore example_embeddings example_labels
        exclude_file).1.map fun e => dot e (embed (text.take 4000)))
      (classifyUsedStore example_embeddings example_labels exclude_file).2
      k).neighbors)

/-- One entry of the hard-coded `LABELED_EXAMPLES` table
(`classify_knn.py:17-35`, `classifier.py:27-38`). -/
structure ExampleInfo where
  is_phishing : Bool
  label : String
  deriving DecidableEq, Repr

/-- The example-loading loop of `classify_knn.py`'s `main`
(`classify_knn.py:188-197`): `resolve` models `Path(filepath).exists()`
plus `read_text` (`none` when the file does not exist).  Each existing
file's full content is stored: there is no emptiness check and no
truncation. -/
def knnLoadExamples (table : List (String × ExampleInfo))
    (resolve : String → Option (List Char)) : List (List Char × Label) :=
  table.filterMap fun p =>
    (resolve p.1).map fun content => (content, ⟨p.1, p.2.is_phishing, p.2.label⟩)

/-- `PhishingClassifier._load_examples` (`classifier.py:148-166`):
`resolve` models `Path(filepath).exists()` plus `get_email_text` (`none`
when the file does not exist).  Only non-empty texts are kept, each
truncated to 4000 characters (`content[:4000]`, `classifier.py:161`). -/
def loadExamples (table : List (String × ExampleInfo))
    (resolve : String → Option (List Char)) : List (List Char × Label) :=
  table.filterMap fun p =>
    (resolve p.1).bind fun content =>
      if content.isEmpty then none
      else some (content.take 4000, ⟨p.1, p.2.is_phishing, p.2.label⟩)

/-- `sklearn.metrics.pairwise.cosine_similarity([q], M)[0]`
(`classify_knn.py:90`) with sklearn's input validation made explicit: a
zero-sample example matrix is rejected (`ValueError`, modelled by
`none`); otherwise, on the unit-normalised vectors the program produces,
the result row is the dot products. -/
def cosine_similarity_checked (q : List ℚ) (M : List (List ℚ)) :
    Option (List ℚ) :=
  if M.isEmpty then none else some (M.map fun e => dot q e)

/-- `classify_knn` (`classify_knn.py:87-121`) with the similarity call's
input validation explicit: the call raises (`none`) exactly when the
example array has zero samples; on a non-empty candidate set it is the
same vote as `classify_knn`. -/
def classify_knn_checked (query : List ℚ) (example_embeddings : List (List ℚ))
    (example_labels : List Label) (k : ℕ) : Option KnnResult :=
  (cosine_similarity_checked query example_embeddings).map fun sims =>
    knnVote sims example_labels k

/-- The per-chunk loop of `classify_with_chunking`
(`classify_knn.py:149-154`) with the similarity call's input validation
explicit: the Python loop runs the chunks in order and propagates the
`ValueError` of the first failing `classify_knn` call (`none`). -/
def collectChunkVotes (embed : List Char → List ℚ)
    (used : List (List ℚ) × List Label) (k : ℕ) :
    List (ℕ × List Char) → Option (List ChunkResult)
  | [] => some []
  | p :: ps =>
    match classify_knn_checked (embed p.2) used.1 used.2 k with
    | none => none
    | some r =>
      match collectChunkVotes embed used k ps with
      | none => none
      | some rest =>
        some ({ is_phishing := r.is_phishing, confidence := r.confidence
                neighbors := r.neighbors, chunk_index := p.1
                chunk_preview := if 100 < p.2.length then
                  p.2.take 100 ++ "...".data else p.2 } :: rest)

/-- `classify_with_chunking` (`classify_knn.py:124-173`) with the
similarity call's input validation explicit: since `chunk_text` always
returns at least one chunk, the whole classification raises (`none`)
whenever the candidate embedding array is empty, instead of returning any
default. -/
def classify_with_chunking_checked (embed : List Char → List ℚ)
    (content : List Char) (example_embeddings : List (List ℚ))
    (example_labels : List Label) (k : ℕ) (exclude_file : Option String) :
    Option EmailResult :=
  (collectChunkVotes embed
      (knnUsedExamples example_embeddings example_labels exclude_file) k
      ((chunk_text content 1000 200).enum)).map fun cr =>
    { is_phishing := cr.any (·.is_phishing)
      confidence := ((if cr.any (·.is_phishing) then
          pyMaxByConf (cr.filter (·.is_phishing))
        else pyMaxByConf cr).getD defaultChunkResult).confidence
      neighbors := ((if cr.any (·.is_phishing) then
          pyMaxByConf (cr.filter (·.is_phishing))
        else pyMaxByConf cr).getD defaultChunkResult).neighbors
      num_chunks := (chunk_text content 1000 200).length
      phishing_chunks := (cr.filter (·.is_phishing)).length
      chunk_results := cr }

/-! ### Helper lemmas -/

lemma getD_mem_or_eq {α : Type*} (l : List α) (i : ℕ) (d : α) :
    l.getD i d ∈ l ∨ l.getD i d = d := by
  rw [List.getD_eq_getElem?_getD]
  cases h : l[i]? with
  | none => simp
  | some a =>
    left
    obtain ⟨hi, he⟩ := List.getElem?_eq_some.1 h
    simpa [he] using List.getElem_mem hi

lemma getD_nonneg {sims : List ℚ} (h : ∀ s ∈ sims, 0 ≤ s) (i : ℕ) :
    0 ≤ sims.getD i 0 := by
  rcases getD_mem_or_eq sims i 0 with hm | he
  · exact h _ hm
  · rw [he]

lemma phishingScore_nonneg (sims : List ℚ) (labels : List Label) (k : ℕ)
    (h : ∀ s ∈ sims, 0 ≤ s) : 0 ≤ phishingScore sims labels k := by
  refine List.sum_nonneg fun x hx => ?_
  rw [List.mem_map] at hx
  obtain ⟨idx, -, rfl⟩ := hx
  split
  · exact getD_nonneg h idx
  · exact le_refl 0

lemma legitScore_nonneg (sims : List ℚ) (labels : List Label) (k : ℕ)
    (h : ∀ s ∈ sims, 0 ≤ s) : 0 ≤ legitScore sims labels k := by
  refine List.sum_nonneg fun x hx => ?_
  rw [List.mem_map] at hx
  obtain ⟨idx, -, rfl⟩ := hx
  split
  · exact le_refl 0
  · exact getD_nonneg h idx

lemma knnVote_confidence (sims : List ℚ) (labels : List Label) (k : ℕ) :
    (knnVote sims labels k).confidence =
      if 0 < phishingScore sims labels k + legitScore sims labels k then
        max (phishingScore sims labels k) (legitScore sims labels k) /
          (phishingScore sims labels k + legitScore sims labels k)
      else 0 := rfl

lemma knnVote_is_phishing (sims : List ℚ) (labels : List Label) (k : ℕ) :
    (knnVote sims labels k).is_phishing =
      decide (legitScore sims labels k < phishingScore sims labels k) := rfl

lemma knnVote_neighbors (sims : List ℚ) (labels : List Label) (k : ℕ) :
    (knnVote sims labels k).neighbors = (topKIndices sims k).map fun idx =>
      { file := (labels.getD idx defaultLabel).file
        label := (labels.getD idx defaultLabel).label
        similarity := sims.getD idx 0
        is_phishing := (labels.getD idx defaultLabel).is_phishing } := rfl

lemma confFormula_spec (p l : ℚ) (hp : 0 ≤ p) (hl : 0 ≤ l) :
    0 ≤ (if 0 < p + l then max p l / (p + l) else 0) ∧
    (if 0 < p + l then max p l / (p + l) else 0) ≤ 1 ∧
    ((if 0 < p + l then max p l / (p + l) else 0) = 0 → p = 0 ∧ l = 0) := by
  by_cases hpl : 0 < p + l
  · rw [if_pos hpl]
    refine ⟨div_nonneg (le_max_of_le_left hp) hpl.le, ?_, ?_⟩
    · rw [div_le_one hpl]
      exact max_le (by linarith) (by linarith)
    · intro h0
      rcases div_eq_zero_iff.1 h0 with hm | hz
      · have hp0 : p ≤ 0 := le_trans (le_max_left p l) hm.le
        have hl0 : l ≤ 0 := le_trans (le_max_right p l) hm.le
        exact ⟨le_antisymm hp0 hp, le_antisymm hl0 hl⟩
      · exact absurd hz hpl.ne'
  · rw [if_neg hpl]
    refine ⟨le_refl 0, zero_le_one, fun _ => ?_⟩
    constructor <;> linarith [not_lt.1 hpl]

lemma knnVote_confidence_spec (sims : List ℚ) (labels : List Label) (k : ℕ)
    (h : ∀ s ∈ sims, 0 ≤ s) :
    0 ≤ (knnVote sims labels k).confidence ∧
    (knnVote sims labels k).confidence ≤ 1 ∧
    ((knnVote sims labels k).confidence = 0 →
      phishingScore sims labels k = 0 ∧ legitScore sims labels k = 0) := by
  rw [knnVote_confidence]
  exact confFormula_spec _ _ (phishingScore_nonneg sims labels k h)
    (legitScore_nonneg sims labels k h)

/-! ### C1: confidence range and zero condition -/

/-- C1 (counterexample): at query `(1,0)` against the unit-norm example
vectors `(1,0)` (phishing) and `(-1,0)` (legitimate), the similarities are
`1` and `-1`, the accumulators are `1` and `-1` (not both zero), yet the
returned confidence is `0`; and against `(1,0)` (phishing) and
`(-3/5,4/5)` (legitimate) the returned confidence is `5/2 > 1`.  The
claim's universal statement is therefore false as stated. -/
theorem C1_confidence_counterexample :
    (classify_knn [1, 0] [[1, 0], [-1, 0]]
      [⟨"a", true, "x"⟩, ⟨"b", false, "y"⟩] 3).confidence = 0 ∧
    legitScore ([[1, 0], [-1, 0]].map fun e => dot [1, 0] e)
      [⟨"a", true, "x"⟩, ⟨"b", false, "y"⟩] 3 = -1 ∧
    (classify_knn [1, 0] [[1, 0], [-3/5, 4/5]]
      [⟨"a", true, "x"⟩, ⟨"b", false, "y"⟩] 3).confidence = 5/2 := by
  norm_num [classify_knn, knnVote, phishingScore, legitScore, topKIndices,
    lastSlice, List.insertionSort, List.orderedInsert, defaultLabel,
    List.getD, dot]

/-- C1 (amended): when every similarity in the candidate set is
nonnegative — which holds in particular whenever the query is within 90
degrees of every example in embedding space — the confidence returned by
the similarity voter (`knnVote`, the common core of `classify_knn` and
`PhishingClassifier.classify`) lies in `[0, 1]` and is `0` only when both
the phishing and legitimate accumulators are zero. -/
theorem C1_confidence_amended (sims : List ℚ) (labels : List Label) (k : ℕ)
    (q : List ℚ) (embs : List (List ℚ))
    (h1 : ∀ s ∈ sims, 0 ≤ s) (h2 : ∀ e ∈ embs, 0 ≤ dot q e) :
    (0 ≤ (knnVote sims labels k).confidence ∧
      (knnVote sims labels k).confidence ≤ 1 ∧
      ((knnVote sims labels k).confidence = 0 →
        phishingScore sims labels k = 0 ∧ legitScore sims labels k = 0)) ∧
    (0 ≤ (classify_knn q embs labels k).confidence ∧
      (classify_knn q embs labels k).confidence ≤ 1 ∧
      ((classify_knn q embs labels k).confidence = 0 →
        phishingScore (embs.map fun e => dot q e) labels k = 0 ∧
        legitScore (embs.map fun e => dot q e) labels k = 0)) := by
  refine ⟨knnVote_confidence_spec sims labels k h1, ?_⟩
  exact knnVote_confidence_spec _ labels k (List.forall_mem_map.2 h2)

/-- C1 (witness). -/
theorem C1_confidence_witness :
    0 ≤ (knnVote [1, 0] [⟨"a", true, "x"⟩] 3).confidence ∧
    (knnVote [1, 0] [⟨"a", true, "x"⟩] 3).confidence ≤ 1 ∧
    ((knnVote [1, 0] [⟨"a", true, "x"⟩] 3).confidence = 0 →
      phishingScore [1, 0] [⟨"a", true, "x"⟩] 3 = 0 ∧
      legitScore [1, 0] [⟨"a", true, "x"⟩] 3 = 0) :=
  (C1_confidence_amended [1, 0] [⟨"a", true, "x"⟩] 3 [1, 0] [[1, 0]]
    (by norm_num) (by norm_num [dot])).1

/-! ### C5: strict-inequality verdict and tie behaviour -/

/-- C5: in every vote the verdict is phishing exactly when the phishing
accumulator strictly exceeds the legitimate one; an exact tie yields
legitimate.  Stated for the shared voting core `knnVote` and for
`classify_knn` (`PhishingClassifier.classify` produces its verdict as
`(knnVote ...).is_phishing` as well). -/
theorem C5_strict_verdict (sims : List ℚ) (labels : List Label) (k : ℕ)
    (q : List ℚ) (embs : List (List ℚ)) :
    ((knnVote sims labels k).is_phishing = true ↔
      legitScore sims labels k < phishingScore sims labels k) ∧
    (phishingScore sims labels k = legitScore sims labels k →
      (knnVote sims labels k).is_phishing = false) ∧
    ((classify_knn q embs labels k).is_phishing = true ↔
      legitScore (embs.map fun e => dot q e) labels k <
        phishingScore (embs.map fun e => dot q e) labels k) := by
  refine ⟨by rw [knnVote_is_phishing]; exact decide_eq_true_iff, ?_, ?_⟩
  · intro h
    rw [knnVote_is_phishing, decide_eq_false_iff_not]
    rw [h]
    exact lt_irrefl _
  · simp only [classify_knn]
    rw [knnVote_is_phishing]
    exact decide_eq_true_iff

/-- C5 (witness): a concrete exact tie (one phishing and one legitimate
example at equal similarity `1/2`) yields the legitimate verdict. -/
theorem C5_strict_verdict_witness :
    (knnVote [1/2, 1/2] [⟨"a", true, "x"⟩, ⟨"b", false, "y"⟩] 3).is_phishing
      = false :=
  (C5_strict_verdict [1/2, 1/2] [⟨"a", true, "x"⟩, ⟨"b", false, "y"⟩] 3
    [] []).2.1 (by norm_num [phishingScore, legitScore, topKIndices,
      lastSlice, List.insertionSort, List.orderedInsert, defaultLabel,
      List.getD])

/-! ### C10: neighbours ordered by non-increasing similarity -/

lemma lastSlice_sublist (k : ℕ) (l : List ℕ) : (lastSlice k l).Sublist l := by
  unfold lastSlice
  split
  · exact List.Sublist.refl l
  · exact List.drop_sublist _ _

lemma topKIndices_sorted (sims : List ℚ) (k : ℕ) :
    (topKIndices sims k).Pairwise fun i j => sims.getD j 0 ≤ sims.getD i 0 := by
  unfold topKIndices
  rw [List.pairwise_reverse]
  haveI : IsTotal ℕ fun i j => sims.getD i 0 ≤ sims.getD j 0 :=
    ⟨fun a b => le_total _ _⟩
  haveI : IsTrans ℕ fun i j => sims.getD i 0 ≤ sims.getD j 0 :=
    ⟨fun a b c hab hbc => le_trans hab hbc⟩
  exact List.Pairwise.sublist (lastSlice_sublist _ _)
    (List.sorted_insertionSort _ _)

lemma knnVote_neighbors_sorted (sims : List ℚ) (labels : List Label) (k : ℕ) :
    (knnVote sims labels k).neighbors.Pairwise
      fun a b => b.similarity ≤ a.similarity := by
  rw [knnVote_neighbors, List.pairwise_map]
  exact topKIndices_sorted sims k

/-- C10: the neighbour list returned by the similarity voter is ordered by
non-increasing similarity, in `classify_knn` (first conjunct, for any
non-empty candidate set as the claim states) and in every call of
`PhishingClassifier.classify` (second conjunct). -/
theorem C10_neighbors_sorted (q : List ℚ) (embs : List (List ℚ))
    (labels : List Label) (k : ℕ) (h : embs ≠ []) :
    (classify_knn q embs labels k).neighbors.Pairwise
      (fun a b => b.similarity ≤ a.similarity) ∧
    ∀ (e : String → List ℚ) (embs2 : List (List ℚ)) (labels2 : List Label)
      (text : String) (k2 : ℕ) (excl : Option String),
      (PhishingClassifier.classify e embs2 labels2 text k2 excl).2.2.Pairwise
        (fun a b => b.similarity ≤ a.similarity) := by
  refine ⟨knnVote_neighbors_sorted _ _ _, ?_⟩
  intro e embs2 labels2 text k2 excl
  simp only [PhishingClassifier.classify]
  split
  · simp
  · split
    · simp
    · exact knnVote_neighbors_sorted _ _ _

/-- C10 (witness). -/
theorem C10_neighbors_sorted_witness :
    (classify_knn [1, 0] [[1, 0]] [⟨"a", true, "x"⟩] 3).neighbors.Pairwise
      (fun a b => b.similarity ≤ a.similarity) :=
  (C10_neighbors_sorted [1, 0] [[1, 0]] [⟨"a", true, "x"⟩] 3 (by simp)).1

/-! ### C9: example loading -/

/-- C9 (counterexample): `classify_knn.py`'s loader (`main`,
`classify_knn.py:188-197`) stores an example whose resolved text is empty,
and stores texts longer than 4000 characters untruncated, so the claim is
false as stated for that loader. -/
theorem C9_loading_counterexample :
    (∃ p ∈ knnLoadExamples [("e", ⟨true, "x"⟩)] fun _ => some [],
      p.1 = ([] : List Char)) ∧
    (∃ p ∈ knnLoadExamples [("e", ⟨true, "x"⟩)]
        fun _ => some (List.replicate 4001 'a'), 4000 < p.1.length) := by
  constructor
  · exact ⟨([], ⟨"e", true, "x"⟩),
      by simp only [knnLoadExamples, List.filterMap_cons, List.filterMap_nil,
        Option.map_some', List.mem_singleton], rfl⟩
  · refine ⟨(List.replicate 4001 'a', ⟨"e", true, "x"⟩),
      by simp only [knnLoadExamples, List.filterMap_cons, List.filterMap_nil,
        Option.map_some', List.mem_singleton], ?_⟩
    show 4000 < (List.replicate 4001 'a').length
    rw [List.length_replicate]
    omega

/-- C9 (amended): in `classifier.py` (`_load_examples`) every stored
example does come from an identifier resolving to existing non-empty text
and its text is truncated to at most 4000 characters; in `classify_knn.py`
(`main`) a stored example only requires the identifier to resolve — the
stored text is the full resolved content, possibly empty and untruncated. -/
theorem C9_loading_amended :
    (∀ (table : List (String × ExampleInfo))
       (resolve : String → Option (List Char)) (text : List Char) (lab : Label),
       (text, lab) ∈ loadExamples table resolve →
       ∃ content, resolve lab.file = some content ∧ content ≠ [] ∧
         text = content.take 4000 ∧ text.length ≤ 4000) ∧
    (∀ (table : List (String × ExampleInfo))
       (resolve : String → Option (List Char)) (text : List Char) (lab : Label),
       (text, lab) ∈ knnLoadExamples table resolve →
       ∃ content, resolve lab.file = some content ∧ text = content) := by
  constructor
  · intro table resolve text lab hm
    rw [loadExamples, List.mem_filterMap] at hm
    obtain ⟨p, -, hp⟩ := hm
    rw [Option.bind_eq_some] at hp
    obtain ⟨content, hr, hp⟩ := hp
    by_cases hce : content.isEmpty
    · rw [if_pos hce] at hp
      exact absurd hp (by simp)
    · rw [if_neg hce] at hp
      simp only [Option.some.injEq, Prod.mk.injEq] at hp
      obtain ⟨h1, h2⟩ := hp
      subst h2
      refine ⟨content, hr, ?_, h1.symm, ?_⟩
      · simpa using hce
      · rw [← h1, List.length_take]
        omega
  · intro table resolve text lab hm
    rw [knnLoadExamples, List.mem_filterMap] at hm
    obtain ⟨p, -, hp⟩ := hm
    rw [Option.map_eq_some'] at hp
    obtain ⟨content, hr, hp⟩ := hp
    simp only [Prod.mk.injEq] at hp
    obtain ⟨h1, h2⟩ := hp
    subst h2
    exact ⟨content, hr, h1.symm⟩

/-- C9 (witness). -/
theorem C9_loading_witness :
    ∃ content, some ['a'] = some content ∧ content ≠ ([] : List Char) ∧
      (['a'] : List Char) = content.take 4000 ∧
      (['a'] : List Char).length ≤ 4000 :=
  C9_loading_amended.1 [("e", ⟨true, "x"⟩)] (fun _ => some ['a']) ['a']
    ⟨"e", true, "x"⟩ (by decide)

/-! ### C6 and C7: chunking -/

lemma mem_slice (text : List Char) (start cs i : ℕ) (hi : i < text.length)
    (h1 : start ≤ i) (h2 : i < start + cs) :
    text[i] ∈ (text.drop start).take cs := by
  have hlen : i - start < ((text.drop start).take cs).length := by
    simp only [List.length_take, List.length_drop]
    omega
  have he : ((text.drop start).take cs)[i - start] = text[i] := by
    rw [List.getElem_take, List.getElem_drop]
    congr 1
    omega
  rw [← he]
  exact List.getElem_mem hlen

lemma chunkLoop_covers (text : List Char) (cs ov : ℕ) (hov : ov < cs) :
    ∀ (fuel start i : ℕ), start < text.length → text.length - start ≤ fuel →
      start ≤ i → ∀ hi : i < text.length,
      ∃ ch ∈ chunkLoop text cs ov start fuel, text[i] ∈ ch := by
  intro fuel
  induction fuel with
  | zero =>
    intro start i h1 h2
    omega
  | succ fuel ih =>
    intro start i h1 h2 hsi hi
    simp only [chunkLoop]
    rw [if_pos h1]
    by_cases hbr : text.length ≤ start + cs - ov + ov
    · rw [if_pos hbr]
      exact ⟨_, List.mem_singleton_self _,
        mem_slice text start cs i hi hsi (by omega)⟩
    · rw [if_neg hbr]
      by_cases hic : i < start + cs
      · exact ⟨_, List.mem_cons_self _ _, mem_slice text start cs i hi hsi hic⟩
      · obtain ⟨ch, hch, hmem⟩ :=
          ih (start + cs - ov) i (by omega) (by omega) (by omega) hi
        exact ⟨ch, List.mem_cons_of_mem _ hch, hmem⟩

/-- C6: with the parameters `classify_with_chunking` passes
(`chunk_size = 1000`, `overlap = 200`), every character of the input text
appears in at least one chunk returned by `chunk_text`. -/
theorem C6_chunking_no_loss (text : List Char) (c : Char) (hc : c ∈ text) :
    ∃ ch ∈ chunk_text text 1000 200, c ∈ ch := by
  obtain ⟨i, hi, rfl⟩ := List.mem_iff_getElem.1 hc
  rw [chunk_text]
  by_cases hlen : text.length ≤ 1000
  · rw [if_pos hlen]
    exact ⟨text, List.mem_singleton_self _, List.getElem_mem hi⟩
  · rw [if_neg hlen]
    exact chunkLoop_covers text 1000 200 (by omega) (text.length + 1) 0 i
      (by omega) (by omega) (by omega) hi

/-- C6 (witness). -/
theorem C6_chunking_no_loss_witness :
    ∃ ch ∈ chunk_text ['a', 'b'] 1000 200, 'a' ∈ ch :=
  C6_chunking_no_loss ['a', 'b'] 'a' (by decide)

lemma chunkLoop_step (text : List Char) (cs ov start fuel : ℕ) :
    chunkLoop text cs ov start (fuel + 1) =
      if start < text.length then
        if text.length ≤ start + cs - ov + ov then
          [(text.drop start).take cs]
        else
          (text.drop start).take cs :: chunkLoop text cs ov (start + cs - ov) fuel
      else [] := rfl

/-- C7: on any input of length 2500 with `chunk_size = 1000` and
`overlap = 200`, `chunk_text` returns exactly the three windows starting
at offsets 0, 800 and 1600; the loop stops after the third chunk because
`2400 + 200 ≥ 2500`, so no further trailing slice is emitted. -/
theorem C7_chunk_offsets_2500 (text : List Char) (h : text.length = 2500) :
    chunk_text text 1000 200 =
      [text.take 1000, (text.drop 800).take 1000, (text.drop 1600).take 1000] ∧
    (chunk_text text 1000 200).length = 3 := by
  have h1 : ¬ text.length ≤ 1000 := by omega
  have he : chunk_text text 1000 200 =
      [text.take 1000, (text.drop 800).take 1000, (text.drop 1600).take 1000] := by
    rw [chunk_text, if_neg h1, h]
    rw [chunkLoop_step, if_pos (by omega), if_neg (by omega)]
    rw [show (0 : ℕ) + 1000 - 200 = 800 from rfl, List.drop_zero]
    rw [show (2500 : ℕ) = 2499 + 1 from rfl, chunkLoop_step,
      if_pos (by omega), if_neg (by omega)]
    rw [show (800 : ℕ) + 1000 - 200 = 1600 from rfl]
    rw [show (2499 : ℕ) = 2498 + 1 from rfl, chunkLoop_step,
      if_pos (by omega), if_pos (by omega)]
  exact ⟨he, by rw [he]; rfl⟩

/-- C7 (witness). -/
theorem C7_chunk_offsets_2500_witness :
    chunk_text (List.replicate 2500 'a') 1000 200 =
      [(List.replicate 2500 'a').take 1000,
       ((List.replicate 2500 'a').drop 800).take 1000,
       ((List.replicate 2500 'a').drop 1600).take 1000] ∧
    (chunk_text (List.replicate 2500 'a') 1000 200).length = 3 :=
  C7_chunk_offsets_2500 (List.replicate 2500 'a') (by rw [List.length_replicate])

/-! ### Helper lemmas for aggregation, filtering and the fallback -/

lemma pyMaxFold_spec (xs : List ChunkResult) :
    ∀ acc : ChunkResult,
      (xs.foldl (fun a y => if a.confidence < y.confidence then y else a) acc)
        ∈ acc :: xs ∧
      acc.confidence ≤
        (xs.foldl (fun a y => if a.confidence < y.confidence then y else a)
          acc).confidence ∧
      ∀ c ∈ xs, c.confidence ≤
        (xs.foldl (fun a y => if a.confidence < y.confidence then y else a)
          acc).confidence := by
  induction xs with
  | nil =>
    intro acc
    exact ⟨List.mem_cons_self _ _, le_refl _, by simp⟩
  | cons y ys ih =>
    intro acc
    simp only [List.foldl_cons]
    by_cases hc : acc.confidence < y.confidence
    · rw [if_pos hc]
      obtain ⟨hmem, hle, hall⟩ := ih y
      refine ⟨List.mem_cons_of_mem _ hmem, le_trans hc.le hle, fun c hcm => ?_⟩
      rcases List.mem_cons.1 hcm with rfl | h2
      · exact hle
      · exact hall c h2
    · rw [if_neg hc]
      obtain ⟨hmem, hle, hall⟩ := ih acc
      refine ⟨?_, hle, fun c hcm => ?_⟩
      · rcases List.mem_cons.1 hmem with hr | hr
        · rw [hr]
          exact List.mem_cons_self _ _
        · exact List.mem_cons_of_mem _ (List.mem_cons_of_mem _ hr)
      · rcases List.mem_cons.1 hcm with rfl | h2
        · exact le_trans (not_lt.1 hc) hle
        · exact hall c h2

lemma pyMaxByConf_spec (l : List ChunkResult) (b : ChunkResult)
    (hb : pyMaxByConf l = some b) :
    b ∈ l ∧ ∀ c ∈ l, c.confidence ≤ b.confidence := by
  rcases l with _ | ⟨x, xs⟩
  · simp [pyMaxByConf] at hb
  · simp only [pyMaxByConf, Option.some.injEq] at hb
    obtain ⟨hmem, hle, hall⟩ := pyMaxFold_spec xs x
    subst hb
    refine ⟨hmem, fun c hc => ?_⟩
    rcases List.mem_cons.1 hc with rfl | h2
    · exact hle
    · exact hall c h2

lemma pyMaxByConf_isSome (l : List ChunkResult) (h : l ≠ []) :
    ∃ b, pyMaxByConf l = some b := by
  rcases l with _ | ⟨x, xs⟩
  · exact absurd rfl h
  · exact ⟨_, rfl⟩

lemma pyMax_getD_prop (P : ChunkResult → Prop) (l : List ChunkResult)
    (hP : ∀ c ∈ l, P c) (hd : P defaultChunkResult) :
    P ((pyMaxByConf l).getD defaultChunkResult) := by
  rcases hb : pyMaxByConf l with _ | b
  · simpa using hd
  · simpa using hP _ (pyMaxByConf_spec l b hb).1

lemma filterExamples_snd_files (embs : List (List ℚ)) (labels : List Label)
    (f : String) : ∀ lab ∈ (filterExamples embs labels f).2, lab.file ≠ f := by
  intro lab h
  unfold filterExamples at h
  rw [List.unzip_snd, List.mem_map] at h
  obtain ⟨p, hp, rfl⟩ := h
  rw [List.mem_filter] at hp
  simpa using hp.2

lemma filterExamples_all_match (embs : List (List ℚ)) (labels : List Label)
    (f : String) (hall : ∀ l ∈ labels, l.file = f) :
    filterExamples embs labels f = ([], []) := by
  unfold filterExamples
  have hnil : (embs.zip labels).filter (fun p => p.2.file != f) = [] := by
    rw [List.filter_eq_nil]
    intro p hp
    simp [hall _ (List.of_mem_zip hp).2]
  rw [hnil]
  rfl

lemma filterExamples_snd_ne_nil (embs : List (List ℚ)) (labels : List Label)
    (f : String) (hlen : embs.length = labels.length)
    (h2 : ∃ l ∈ labels, l.file ≠ f) :
    (filterExamples embs labels f).2 ≠ [] := by
  obtain ⟨l, hl, hlf⟩ := h2
  have hz : l ∈ (embs.zip labels).map Prod.snd := by
    rw [List.map_snd_zip _ _ hlen.ge]
    exact hl
  rw [List.mem_map] at hz
  obtain ⟨p, hp, hpe⟩ := hz
  have hpf : p ∈ (embs.zip labels).filter (fun p => p.2.file != f) :=
    List.mem_filter.2 ⟨hp, by simp [hpe, hlf]⟩
  unfold filterExamples
  rw [List.unzip_snd]
  intro hnil
  rw [List.map_eq_nil] at hnil
  rw [hnil] at hpf
  exact absurd hpf (List.not_mem_nil _)

lemma knnUsedExamples_all_match (embs : List (List ℚ)) (labels : List Label)
    (f : String) (hall : ∀ l ∈ labels, l.file = f) :
    knnUsedExamples embs labels (some f) = (embs, labels) := by
  simp only [knnUsedExamples]
  by_cases hf : f = ""
  · rw [if_pos hf]
  · rw [if_neg hf, filterExamples_all_match embs labels f hall]
    simp

lemma knnUsedExamples_snd_filtered (embs : List (List ℚ)) (labels : List Label)
    (f : String) (hf : f ≠ "") (hne : (filterExamples embs labels f).2 ≠ []) :
    (knnUsedExamples embs labels (some f)).2 = (filterExamples embs labels f).2 := by
  simp only [knnUsedExamples]
  rw [if_neg hf]
  simp only [List.isEmpty_iff]
  rw [if_neg hne]

lemma knnUsedExamples_nil (excl : Option String) :
    knnUsedExamples [] [] excl = ([], []) := by
  rcases excl with _ | f
  · rfl
  · simp only [knnUsedExamples]
    by_cases hf : f = ""
    · rw [if_pos hf]
    · rw [if_neg hf]
      rfl

lemma knnVote_neighbors_files (sims : List ℚ) (labels : List Label) (k : ℕ) :
    ∀ n ∈ (knnVote sims labels k).neighbors,
      n.file = "" ∨ ∃ lab ∈ labels, n.file = lab.file := by
  intro n hn
  rw [knnVote_neighbors, List.mem_map] at hn
  obtain ⟨idx, -, rfl⟩ := hn
  rcases getD_mem_or_eq labels idx defaultLabel with hm | he
  · exact Or.inr ⟨_, hm, rfl⟩
  · exact Or.inl (by rw [he]; rfl)

lemma chunk_text_ne_nil (text : List Char) (cs ov : ℕ) :
    chunk_text text cs ov ≠ [] := by
  unfold chunk_text
  split
  · simp
  · rename_i hlen
    rw [chunkLoop_step, if_pos (by omega)]
    split <;> simp

lemma chunkResults_ne_nil (e : List Char → List ℚ) (content : List Char)
    (used : List (List ℚ) × List Label) (k : ℕ) :
    chunkResults e content used k ≠ [] := by
  unfold chunkResults
  intro h
  rw [List.map_eq_nil, List.enum_eq_nil] at h
  exact chunk_text_ne_nil content 1000 200 h

lemma chunkResults_neighbors_files (e : List Char → List ℚ)
    (content : List Char) (used : List (List ℚ) × List Label) (k : ℕ) :
    ∀ c ∈ chunkResults e content used k, ∀ n ∈ c.neighbors,
      n.file = "" ∨ ∃ lab ∈ used.2, n.file = lab.file := by
  intro c hc n hn
  unfold chunkResults at hc
  rw [List.mem_map] at hc
  obtain ⟨p, -, rfl⟩ := hc
  exact knnVote_neighbors_files _ _ _ n hn

lemma cwc_chunk_results (e : List Char → List ℚ) (content : List Char)
    (embs : List (List ℚ)) (labels : List Label) (k : ℕ)
    (excl : Option String) :
    (classify_with_chunking e content embs labels k excl).chunk_results =
      chunkResults e content (knnUsedExamples embs labels excl) k := rfl

lemma cwc_is_phishing (e : List Char → List ℚ) (content : List Char)
    (embs : List (List ℚ)) (labels : List Label) (k : ℕ)
    (excl : Option String) :
    (classify_with_chunking e content embs labels k excl).is_phishing =
      (chunkResults e content (knnUsedExamples embs labels excl) k).any
        (·.is_phishing) := rfl

lemma cwc_confidence (e : List Char → List ℚ) (content : List Char)
    (embs : List (List ℚ)) (labels : List Label) (k : ℕ)
    (excl : Option String) :
    (classify_with_chunking e content embs labels k excl).confidence =
      ((if (chunkResults e content (knnUsedExamples embs labels excl) k).any
            (·.is_phishing) then
          pyMaxByConf ((chunkResults e content
            (knnUsedExamples embs labels excl) k).filter (·.is_phishing))
        else
          pyMaxByConf (chunkResults e content
            (knnUsedExamples embs labels excl) k)).getD
        defaultChunkResult).confidence := rfl

lemma cwc_neighbors (e : List Char → List ℚ) (content : List Char)
    (embs : List (List ℚ)) (labels : List Label) (k : ℕ)
    (excl : Option String) :
    (classify_with_chunking e content embs labels k excl).neighbors =
      ((if (chunkResults e content (knnUsedExamples embs labels excl) k).any
            (·.is_phishing) then
          pyMaxByConf ((chunkResults e content
            (knnUsedExamples embs labels excl) k).filter (·.is_phishing))
        else
          pyMaxByConf (chunkResults e content
            (knnUsedExamples embs labels excl) k)).getD
        defaultChunkResult).neighbors := rfl

/-! ### C8: empty example store -/

/-- C8 (counterexample): with zero loaded examples, `classify_knn.py`'s
path fails instead of returning the safe default: the similarity call
rejects the zero-sample example array (a `ValueError`, modelled by
`none`), so at a concrete input both the single vote and the whole
chunked classification raise rather than produce
`(false, 0, [])`. -/
theorem C8_empty_store_counterexample :
    classify_knn_checked [1, 0] [] [⟨"a", true, "x"⟩] 3 = none ∧
    classify_with_chunking_checked (fun _ => [1, 0]) ['a'] [] [] 3 none =
      none :=
  ⟨rfl, rfl⟩

/-- C8 (amended): with an empty Example Store,
`PhishingClassifier.classify` returns the safe default `(false, 0, [])`
by its explicit early return (`classifier.py:183-184`);
`classify_knn.py`'s path instead fails: the similarity call rejects the
zero-sample example array, so every `classify_knn` call — and with it
`classify_with_chunking`, since there is always at least one chunk —
raises rather than returning the default. -/
theorem C8_empty_store_amended (e2 : String → List ℚ) (text : String)
    (k : ℕ) (excl : Option String) (e1 : List Char → List ℚ)
    (content : List Char) (k2 : ℕ) (excl2 : Option String) (q : List ℚ)
    (labels : List Label) :
    PhishingClassifier.classify e2 [] [] text k excl = (false, 0, []) ∧
    classify_knn_checked q [] labels k = none ∧
    classify_with_chunking_checked e1 content [] [] k2 excl2 = none := by
  refine ⟨rfl, rfl, ?_⟩
  unfold classify_with_chunking_checked
  rw [knnUsedExamples_nil]
  obtain ⟨p, ps, he⟩ := List.exists_cons_of_ne_nil
    (fun h => chunk_text_ne_nil content 1000 200 (List.enum_eq_nil.1 h))
  rw [he]
  rfl

/-! ### C3: exclusion that empties the store -/

lemma classifyUsedStore_some (embs : List (List ℚ)) (labels : List Label)
    (f : String) (hf : f ≠ "") :
    classifyUsedStore embs labels (some f) = filterExamples embs labels f := by
  simp only [classifyUsedStore]
  rw [if_neg hf]

/-- C3 (counterexample): with a store holding exactly one labeled example
and that example excluded, `PhishingClassifier.classify` returns the
degenerate `(false, 0, [])` (`classifier.py:195-196`) — it does not fall
back to the unfiltered set, whose result at the same query would be
`(true, 1, [that example])`.  The claim is false as stated for
`classifier.py`. -/
theorem C3_loo_fallback_counterexample :
    PhishingClassifier.classify (fun _ => [1, 0]) [[1, 0]]
      [⟨"email/sample-1.eml", true, "Banking points scam"⟩] "x" 3
      (some "email/sample-1.eml") = (false, 0, []) ∧
    PhishingClassifier.classify (fun _ => [1, 0]) [[1, 0]]
      [⟨"email/sample-1.eml", true, "Banking points scam"⟩] "x" 3 none =
      (true, 1, [⟨"email/sample-1.eml", "Banking points scam", 1, true⟩]) := by
  constructor
  · unfold PhishingClassifier.classify
    rw [classifyUsedStore_some _ _ _ (by decide),
      filterExamples_all_match _ _ _ (by decide)]
    have hie : (([], []) : List (List ℚ) × List Label).2.isEmpty = true := rfl
    rw [if_neg (by decide), if_pos hie]
  · unfold PhishingClassifier.classify
    norm_num [classifyUsedStore, knnVote, phishingScore, legitScore,
      topKIndices, lastSlice, List.insertionSort, List.orderedInsert,
      defaultLabel, List.getD, dot]

/-- C3 (amended): the fallback to the unfiltered set exists only in
`classify_knn.py`: when the exclusion matches every example,
`classify_with_chunking` behaves exactly as with no exclusion
(`classify_knn.py:140-141`), while `PhishingClassifier.classify` instead
returns the degenerate `(false, 0, [])` from zero candidates
(`classifier.py:195-196`). -/
theorem C3_loo_fallback_amended (e1 : List Char → List ℚ)
    (content : List Char) (e2 : String → List ℚ) (text : String)
    (embs : List (List ℚ)) (labels : List Label) (k : ℕ) (f : String)
    (hall : ∀ l ∈ labels, l.file = f) (hf : f ≠ "") :
    classify_with_chunking e1 content embs labels k (some f) =
      classify_with_chunking e1 content embs labels k none ∧
    PhishingClassifier.classify e2 embs labels text k (some f) =
      (false, 0, []) := by
  constructor
  · unfold classify_with_chunking
    rw [knnUsedExamples_all_match embs labels f hall]
    rfl
  · unfold PhishingClassifier.classify
    rw [classifyUsedStore_some embs labels f hf,
      filterExamples_all_match embs labels f hall]
    have hie : (([], []) : List (List ℚ) × List Label).2.isEmpty = true := rfl
    by_cases hemp : labels.isEmpty = true
    · rw [if_pos hemp]
    · rw [if_neg hemp, if_pos hie]

/-- C3 (witness). -/
theorem C3_loo_fallback_witness :
    classify_with_chunking (fun _ => [1, 0]) ['a'] [[1, 0]]
      [⟨"f", true, "l"⟩] 3 (some "f") =
      classify_with_chunking (fun _ => [1, 0]) ['a'] [[1, 0]]
        [⟨"f", true, "l"⟩] 3 none ∧
    PhishingClassifier.classify (fun _ => [1, 0]) [[1, 0]]
      [⟨"f", true, "l"⟩] "x" 3 (some "f") = (false, 0, []) :=
  C3_loo_fallback_amended (fun _ => [1, 0]) ['a'] (fun _ => [1, 0]) "x"
    [[1, 0]] [⟨"f", true, "l"⟩] 3 "f" (by decide) (by decide)

/-! ### C4: the excluded example never reported as a neighbour -/

/-- C4 (counterexample): when the exclusion matches the only example,
`classify_with_chunking`'s fallback (`classify_knn.py:140-141`) reinstates
the full set and the excluded example is reported as a neighbour. -/
theorem C4_exclusion_counterexample :
    ∃ n ∈ (classify_with_chunking (fun _ => [1, 0]) ['a'] [[1, 0]]
      [⟨"f", true, "l"⟩] 3 (some "f")).neighbors, n.file = "f" := by
  refine ⟨⟨"f", "l", 1, true⟩, ?_, rfl⟩
  norm_num [classify_with_chunking, chunkResults, knnUsedExamples,
    filterExamples, chunk_text, classify_knn, knnVote, phishingScore,
    legitScore, topKIndices, lastSlice, List.insertionSort,
    List.orderedInsert, defaultLabel, List.getD, dot, pyMaxByConf,
    defaultChunkResult, List.enum, List.enumFrom]

/-- C4 (amended): provided the exclusion leaves at least one example in
the store (and, for `classify_with_chunking`, the embedding and label
lists have the equal lengths every run of the program produces), no entry
of the returned neighbour list carries the excluded identifier, in both
`classify_with_chunking` and `PhishingClassifier.classify`.  When the
exclusion would empty the store, `classify_knn.py`'s fallback can report
the excluded example (see the counterexample), while `classifier.py`
returns no neighbours at all. -/
theorem C4_exclusion_amended (e1 : List Char → List ℚ) (content : List Char)
    (e2 : String → List ℚ) (text : String) (embs : List (List ℚ))
    (labels : List Label) (k : ℕ) (f : String) (hf : f ≠ "")
    (hlen : embs.length = labels.length)
    (hex : ∃ l ∈ labels, l.file ≠ f) :
    (∀ n ∈ (classify_with_chunking e1 content embs labels k
      (some f)).neighbors, n.file ≠ f) ∧
    (∀ n ∈ (PhishingClassifier.classify e2 embs labels text k
      (some f)).2.2, n.file ≠ f) := by
  constructor
  · intro n hn
    rw [cwc_neighbors] at hn
    have hused2 : (knnUsedExamples embs labels (some f)).2 =
        (filterExamples embs labels f).2 :=
      knnUsedExamples_snd_filtered embs labels f hf
        (filterExamples_snd_ne_nil embs labels f hlen hex)
    have hcp : ∀ c ∈ chunkResults e1 content
        (knnUsedExamples embs labels (some f)) k,
        ∀ m ∈ c.neighbors, m.file ≠ f := by
      intro c hc m hm
      rcases chunkResults_neighbors_files e1 content _ k c hc m hm with
        h0 | ⟨lab, hlab, he⟩
      · rw [h0]
        exact fun hq => hf hq.symm
      · rw [he]
        exact filterExamples_snd_files embs labels f lab (hused2 ▸ hlab)
    have hbest : ∀ m ∈ ((if (chunkResults e1 content
        (knnUsedExamples embs labels (some f)) k).any (·.is_phishing) then
          pyMaxByConf ((chunkResults e1 content
            (knnUsedExamples embs labels (some f)) k).filter (·.is_phishing))
        else
          pyMaxByConf (chunkResults e1 content
            (knnUsedExamples embs labels (some f)) k)).getD
        defaultChunkResult).neighbors, m.file ≠ f := by
      split
      · exact pyMax_getD_prop (fun c => ∀ m ∈ c.neighbors, m.file ≠ f) _
          (fun c hc => hcp c (List.mem_of_mem_filter hc))
          (by simp [defaultChunkResult])
      · exact pyMax_getD_prop (fun c => ∀ m ∈ c.neighbors, m.file ≠ f) _
          hcp (by simp [defaultChunkResult])
    exact hbest n hn
  · intro n hn
    unfold PhishingClassifier.classify at hn
    rw [classifyUsedStore_some embs labels f hf] at hn
    by_cases hemp : labels.isEmpty = true
    · rw [if_pos hemp] at hn
      simp at hn
    · rw [if_neg hemp] at hn
      by_cases hfe : (filterExamples embs labels f).2.isEmpty = true
      · rw [if_pos hfe] at hn
        simp at hn
      · rw [if_neg hfe] at hn
        rcases knnVote_neighbors_files _ _ _ n hn with h0 | ⟨lab, hlab, he⟩
        · rw [h0]
          exact fun hq => hf hq.symm
        · rw [he]
          exact filterExamples_snd_files embs labels f lab hlab

/-- C4 (witness). -/
theorem C4_exclusion_witness :
    (∀ n ∈ (classify_with_chunking (fun _ => [1, 0]) ['a'] [[1, 0]]
      [⟨"a", true, "x"⟩] 3 (some "f")).neighbors, n.file ≠ "f") ∧
    (∀ n ∈ (PhishingClassifier.classify (fun _ => [1, 0]) [[1, 0]]
      [⟨"a", true, "x"⟩] "t" 3 (some "f")).2.2, n.file ≠ "f") :=
  C4_exclusion_amended (fun _ => [1, 0]) ['a'] (fun _ => [1, 0]) "t"
    [[1, 0]] [⟨"a", true, "x"⟩] 3 "f" (by decide) rfl
    ⟨⟨"a", true, "x"⟩, by simp, by decide⟩

/-! ### C2: any-chunk-positive aggregation and the decisive chunk -/

/-- C2: `classify_with_chunking` is phishing exactly when some chunk's
verdict is phishing (`classify_knn.py:156-157`), and the email-level
confidence and neighbours come from the decisive chunk: a
maximal-confidence phishing chunk when any chunk is phishing
(`classify_knn.py:160-162`), otherwise a maximal-confidence chunk among
all chunks (`classify_knn.py:163-164`). -/
theorem C2_anychunk_aggregation (e : List Char → List ℚ)
    (content : List Char) (embs : List (List ℚ)) (labels : List Label)
    (k : ℕ) (excl : Option String) (r : EmailResult)
    (hr : r = classify_with_chunking e content embs labels k excl) :
    (r.is_phishing = true ↔ ∃ c ∈ r.chunk_results, c.is_phishing = true) ∧
    ((∃ c ∈ r.chunk_results, c.is_phishing = true) →
      ∃ b ∈ r.chunk_results, b.is_phishing = true ∧
        (∀ c ∈ r.chunk_results, c.is_phishing = true →
          c.confidence ≤ b.confidence) ∧
        r.confidence = b.confidence ∧ r.neighbors = b.neighbors) ∧
    ((∀ c ∈ r.chunk_results, c.is_phishing = false) →
      ∃ b ∈ r.chunk_results,
        (∀ c ∈ r.chunk_results, c.confidence ≤ b.confidence) ∧
        r.confidence = b.confidence ∧ r.neighbors = b.neighbors) := by
  subst hr
  rw [cwc_chunk_results, cwc_is_phishing, cwc_confidence, cwc_neighbors]
  refine ⟨List.any_eq_true, ?_, ?_⟩
  · intro h
    have hany : (chunkResults e content (knnUsedExamples embs labels excl)
        k).any (·.is_phishing) = true := List.any_eq_true.2 h
    obtain ⟨c0, hc0, hc0p⟩ := h
    have hflt : (chunkResults e content (knnUsedExamples embs labels excl)
        k).filter (·.is_phishing) ≠ [] :=
      List.ne_nil_of_mem (List.mem_filter.2 ⟨hc0, hc0p⟩)
    obtain ⟨b, hb⟩ := pyMaxByConf_isSome _ hflt
    obtain ⟨hbmem, hbmax⟩ := pyMaxByConf_spec _ b hb
    rw [List.mem_filter] at hbmem
    refine ⟨b, hbmem.1, hbmem.2, ?_, ?_, ?_⟩
    · intro c hc hcp
      exact hbmax c (List.mem_filter.2 ⟨hc, hcp⟩)
    · rw [if_pos hany, hb, Option.getD_some]
    · rw [if_pos hany, hb, Option.getD_some]
  · intro h
    have hany : (chunkResults e content (knnUsedExamples embs labels excl)
        k).any (·.is_phishing) = false :=
      List.any_eq_false.2 fun c hc => by simp [h c hc]
    obtain ⟨b, hb⟩ := pyMaxByConf_isSome _ (chunkResults_ne_nil e content
      (knnUsedExamples embs labels excl) k)
    obtain ⟨hbmem, hbmax⟩ := pyMaxByConf_spec _ b hb
    refine ⟨b, hbmem, hbmax, ?_, ?_⟩
    · rw [if_neg (by simp [hany]), hb, Option.getD_some]
    · rw [if_neg (by simp [hany]), hb, Option.getD_some]

/-- C2 (witness). -/
theorem C2_anychunk_aggregation_witness :
    (classify_with_chunking (fun _ => [1, 0]) ['a'] [[1, 0]]
        [⟨"f", true, "l"⟩] 3 none).is_phishing = true ↔
    ∃ c ∈ (classify_with_chunking (fun _ => [1, 0]) ['a'] [[1, 0]]
        [⟨"f", true, "l"⟩] 3 none).chunk_results, c.is_phishing = true :=
  (C2_anychunk_aggregation (fun _ => [1, 0]) ['a'] [[1, 0]]
    [⟨"f", true, "l"⟩] 3 none _ rfl).1
